import Mathlib

/-!
Shallow embedding of the smyklot Discord bot (Rust, serenity framework)
and proofs about its command handlers, configuration store, rate-limit
buckets and dispatch hooks.

Conventions of the embedding:
* Rust `Option<T>` becomes `Option`, fallible paths become `Except`.
* Snowflake identifiers (`UserId`, `RoleId`, `ChannelId`, `EmojiId`) are
  modelled as `Nat`.
* Outbound platform calls (HTTP) are external collaborators: their results
  enter the model as parameters, and the calls a handler makes are recorded
  in explicit effect lists.
* Literal braces appearing in Rust string literals are written with the
  escapes \x7b and \x7d.
-/

/-! ## Configuration store (src/main.rs, `struct Config` and `Config::new`) -/

/-- The shared configuration struct from `src/main.rs` lines 39-43. -/
structure Config where
  mute_role_id : Option Nat
  general_channel_id : Option Nat
  version : String
deriving DecidableEq, Repr

/-- `Config::new` from `src/main.rs` lines 49-57: fixes the mute role id and
leaves the announcement channel unset. -/
def Config.new (version : String) : Config :=
  { version := version
  , mute_role_id := some 818097980493660170
  , general_channel_id := none }

/-- Configurations reachable in the running program: the store is created
once by `Config::new` at startup (`main`, src/main.rs lines 299-305) and no
command in the current command set writes to it, so there are no step
constructors. -/
inductive ConfigReachable : Config → Prop where
  | init (version : String) : ConfigReachable (Config.new version)

/-- The `.unwrap()` performed on `config.mute_role_id` by the mute-family
handlers (src/commands/mute.rs lines 24, 46, 64): `Except.error` marks the
panic on `None`. -/
def unwrap_mute_role (c : Config) : Except String Nat :=
  match c.mute_role_id with
  | some r => Except.ok r
  | none => Except.error "called Option::unwrap on a None value"

/-! ## `version` command (src/commands/version.rs lines 14-32) -/

/-- Reply text of the `version` command: the Rust `match` on the version
string sends a shrug glyph for the unresolved template literal or the empty
string, and the raw value otherwise. -/
def version_message (version : String) : String :=
  if version = "\x7b\x7bversion\x7d\x7d" then "¯\\_(ツ)_/¯"
  else if version = "" then "¯\\_(ツ)_/¯"
  else version

/-! ## `do_you_know` command (src/commands/do_you_know.rs lines 12-24) -/

/-- The inbound message fields the embedding tracks: author identity and
display name, raw text and channel context (spec section 6). -/
structure MessageModel where
  author_id : Nat
  author_name : String
  content : String
  channel_id : Nat
deriving DecidableEq, Repr

/-- Reply of `do_you_know`: one fixed string when the author's display name
equals the literal "zawiszaty", another fixed string otherwise. -/
def do_you_know_reply (msg : MessageModel) : String :=
  if msg.author_name = "zawiszaty" then "tobie nie powiem"
  else "pierwsze słyszę"

/-! ## Owner check and `ping` (src/main.rs lines 318-348) -/

/-- `Reason` of serenity's standard framework, as used by `owner_check`. -/
inductive Reason where
  | user (text : String)
  | log (text : String)
  | unknown
  | userAndLog (user : String) (log : String)
deriving DecidableEq, Repr

/-- `owner_check` from `src/main.rs` lines 320-339: passes exactly for the
author id 355607930168541185, otherwise fails with a user-visible reason. -/
def owner_check (author_id : Nat) : Except Reason Unit :=
  if author_id ≠ 355607930168541185 then
    Except.error (Reason.user "Lacked owner permission")
  else
    Except.ok ()

/-- The owner ids inserted into the framework's owners set in `main`
(src/main.rs lines 246-251). The team/application owner added at runtime is
environment data and is not part of this static list. -/
def framework_owners : List Nat :=
  [355607930168541185, 534066481369972757, 143681393426169856, 207844448569131008]

/-- Dispatch of `ping` (src/main.rs lines 341-348) through its `Owner`
check: the reply is sent only when the check passes. -/
def ping_dispatch (author_id : Nat) : Option String :=
  match owner_check author_id with
  | Except.ok _ => some "Pong! :-)"
  | Except.error _ => none

/-! ## Configuration-lock traces (C1)

Rust drop semantics: the guard returned by `config_lock.read().await` is
bound to a local and is dropped at the end of the handler's body, after
every outbound platform call made inside the body. Each trace below lists,
in source order, the Configuration-lock events and outbound HTTP calls of
one handler that reads the shared `Config`. -/

/-- Events relevant to the Configuration read lock inside one handler:
acquiring the read guard, reading a field through it, an outbound platform
API call, and the guard's drop. -/
inductive ConfigLockEvent where
  | acquireRead
  | readField (field : String)
  | apiCall (endpoint : String)
  | release
deriving DecidableEq, Repr

/-- `version` handler (src/commands/version.rs lines 15-32): the guard is
taken at line 21, `version` is read at line 22, the reply at line 29 is an
outbound call, and the guard drops when the function returns. -/
def version_trace : List ConfigLockEvent :=
  [ConfigLockEvent.acquireRead, ConfigLockEvent.readField "version",
   ConfigLockEvent.apiCall "reply", ConfigLockEvent.release]

/-- `mute` handler (src/commands/mute.rs lines 21-36): guard at line 23,
`mute_role_id` read at line 24, then `get_guild` does an HTTP channel
lookup (line 91), `add_role` (line 28) and `reply` (line 33) are outbound,
and the guard drops at the end of the body. -/
def mute_trace : List ConfigLockEvent :=
  [ConfigLockEvent.acquireRead, ConfigLockEvent.readField "mute_role_id",
   ConfigLockEvent.apiCall "to_channel", ConfigLockEvent.apiCall "add_role",
   ConfigLockEvent.apiCall "reply", ConfigLockEvent.release]

/-- `unmute` handler (src/commands/mute.rs lines 42-57): guard at line 44,
`get_guild` (line 45) precedes the `mute_role_id` read (line 46),
`remove_role` and `reply` follow, and the guard drops at the end. -/
def unmute_trace : List ConfigLockEvent :=
  [ConfigLockEvent.acquireRead, ConfigLockEvent.apiCall "to_channel",
   ConfigLockEvent.readField "mute_role_id",
   ConfigLockEvent.apiCall "remove_role", ConfigLockEvent.apiCall "reply",
   ConfigLockEvent.release]

/-- `muted` handler (src/commands/mute.rs lines 60-80): guard at line 62,
`get_guild` at line 63, `mute_role_id` read at line 64, the member filter
runs on the cache, `reply` at line 77 is outbound, guard drops at the end. -/
def muted_trace : List ConfigLockEvent :=
  [ConfigLockEvent.acquireRead, ConfigLockEvent.apiCall "to_channel",
   ConfigLockEvent.readField "mute_role_id", ConfigLockEvent.apiCall "reply",
   ConfigLockEvent.release]

/-- Scans a trace with the current lock-held flag and reports whether some
outbound API call happens while the Configuration read lock is held. -/
def callWhileHeld (held : Bool) : List ConfigLockEvent → Bool
  | [] => false
  | ConfigLockEvent.acquireRead :: es => callWhileHeld true es
  | ConfigLockEvent.release :: es => callWhileHeld false es
  | ConfigLockEvent.apiCall _ :: es => held || callWhileHeld held es
  | ConfigLockEvent.readField _ :: es => callWhileHeld held es

/-- A handler holds the Configuration read lock across an outbound call
when its trace contains an API call between acquire and release. -/
def holds_lock_across_call (tr : List ConfigLockEvent) : Bool :=
  callWhileHeld false tr

/-- The trace begins by acquiring the read guard. -/
def acquires_first (tr : List ConfigLockEvent) : Bool :=
  match tr with
  | ConfigLockEvent.acquireRead :: _ => true
  | _ => false

/-- The trace's final event is the guard's drop. -/
def releases_last (tr : List ConfigLockEvent) : Bool :=
  tr.getLast? = some ConfigLockEvent.release

/-! ## Command results, the `after` hook and the emoji handlers (C3) -/

/-- A command's error value: the distinguished `RevertBucket` marker from
serenity's bucket module, or an ordinary boxed error rendered as text. -/
inductive CmdErr where
  | revertBucket
  | message (text : String)
deriving DecidableEq, Repr

/-- Rendering of a command error for the log line of the `after` hook. -/
def cmdErrText : CmdErr → String
  | CmdErr.revertBucket => "RevertBucket"
  | CmdErr.message text => text

/-- Severity of a log line emitted by the hooks in `src/main.rs`. -/
inductive LogLevel where
  | info
  | error
deriving DecidableEq, Repr

/-- The `after` hook from `src/main.rs` lines 208-214: `Ok` outcomes are
logged at info level as processed, any `Err` is logged at error level. -/
def after_hook (command_name : String) (res : Except CmdErr Unit) :
    LogLevel × String :=
  match res with
  | Except.ok _ => (LogLevel.info, "Processed command \x27" ++ command_name ++ "\x27")
  | Except.error why =>
      (LogLevel.error,
       "Command \x27" ++ command_name ++ "\x27 returned error " ++ cmdErrText why)

/-- `cat` handler (src/commands/emoji.rs lines 22-30): on a successful
send the fixed emoji text goes out and the handler returns
`Err(RevertBucket)`; a failed send propagates the transport error. The
argument is the outcome of the outbound `say` call. -/
def cat_run (sayResult : Except String Unit) :
    List String × Except CmdErr Unit :=
  match sayResult with
  | Except.ok _ => ([":cat:"], Except.error CmdErr.revertBucket)
  | Except.error e => ([], Except.error (CmdErr.message e))

/-- `eggplant` handler (src/commands/emoji.rs lines 32-52): the emoji is
deserialized from a constant JSON value (name "baklazan", id
815856883771506768, not animated), rendered by `MessageBuilder` as a
custom-emoji tag, and on a successful send the handler returns
`Err(RevertBucket)`. -/
def eggplant_run (sayResult : Except String Unit) :
    List String × Except CmdErr Unit :=
  match sayResult with
  | Except.ok _ =>
      (["<:baklazan:815856883771506768>"], Except.error CmdErr.revertBucket)
  | Except.error e => ([], Except.error (CmdErr.message e))

/-! ## Rate-limit bucket (C5, and the dispatcher's revert for C3) -/

/-- The data carried by a ratelimit rejection, as consumed by the
`dispatch_error` hook: remaining seconds and the first-try flag. -/
structure RatelimitInfo where
  secs : Nat
  is_first_try : Bool
deriving DecidableEq, Repr

/-- Dispatch errors as the hook in `src/main.rs` distinguishes them: a
ratelimit rejection, or anything else. -/
inductive DispatchErr where
  | ratelimited (info : RatelimitInfo)
  | other
deriving DecidableEq, Repr

/-- `dispatch_error` hook from `src/main.rs` lines 216-228: a ratelimit
rejection is answered with a message only when it carries the first-try
flag; every other rejection in the window is silent. -/
def dispatch_error_notification (e : DispatchErr) : Option String :=
  match e with
  | DispatchErr.ratelimited info =>
      if info.is_first_try then
        some ("Try this again in " ++ toString info.secs ++ " seconds.")
      else none
  | DispatchErr.other => none

/-- Per-caller bucket state: timestamp of the last successful consumption
and whether a rejection has already happened since it. -/
structure BucketState where
  last : Option Nat
  rejectedSinceConsume : Bool
deriving DecidableEq, Repr

/-- Outcome of asking the bucket for a ticket. -/
inductive TicketResult where
  | granted
  | ratelimited (info : RatelimitInfo)
deriving DecidableEq, Repr

/-- Modelled from the spec: the bucket mechanics live in the external
framework (registered in `src/main.rs` lines 280-281 as
`.bucket("emoji", |b| b.delay(5))`), and sections 3 and 4.3 of the spec
describe them — a token bucket of capacity 1 per (bucket, caller),
refilled `delay` seconds after the last consumption; a rejection carries
the remaining seconds and a first-try flag that is true only for the first
rejection since the last successful consumption. -/
def bucketTry (delay : Nat) (s : BucketState) (t : Nat) :
    BucketState × TicketResult :=
  match s.last with
  | none => ({ last := some t, rejectedSinceConsume := false }, TicketResult.granted)
  | some t0 =>
      if t < t0 + delay then
        ({ last := some t0, rejectedSinceConsume := true },
         TicketResult.ratelimited ⟨t0 + delay - t, !s.rejectedSinceConsume⟩)
      else
        ({ last := some t, rejectedSinceConsume := false }, TicketResult.granted)

/-- Runs a sequence of invocation timestamps through the bucket and
collects the user notifications produced by the `dispatch_error` hook on
each rejection. -/
def runNotifications (delay : Nat) (s : BucketState) : List Nat → List String
  | [] => []
  | t :: ts =>
      match bucketTry delay s t with
      | (s', TicketResult.granted) => runNotifications delay s' ts
      | (s', TicketResult.ratelimited info) =>
          (dispatch_error_notification (DispatchErr.ratelimited info)).toList
            ++ runNotifications delay s' ts

/-- Runs a sequence of invocation timestamps through the bucket and counts
how many of them were granted. -/
def runGrants (delay : Nat) (s : BucketState) : List Nat → Nat
  | [] => 0
  | t :: ts =>
      match bucketTry delay s t with
      | (s', TicketResult.granted) => runGrants delay s' ts + 1
      | (s', TicketResult.ratelimited _) => runGrants delay s' ts

/-- Modelled from the spec: the dispatcher's bucket bookkeeping after a
command returns (spec section 4.2 step 7) — when the handler's outcome is
the distinguished refund signal, the bucket's prior state for that caller
is restored; otherwise the consumed state stands. -/
def dispatcher_bucket_after (prior consumed : BucketState)
    (res : Except CmdErr Unit) : BucketState :=
  match res with
  | Except.error CmdErr.revertBucket => prior
  | _ => consumed

/-! ## `mute` handler model (C4, C10) -/

/-- A guild member as the mute-family handlers use it: user id, the name
`member_named` matches on, and the member's role ids. -/
structure Member where
  user_id : Nat
  user_name : String
  roles : List Nat
deriving DecidableEq, Repr

/-- The guild data the handlers consult from the cache. -/
structure Guild where
  members : List Member
deriving DecidableEq, Repr

/-- Rendering of a member in reply texts: serenity's `Display` for
`Member` produces the member mention tag. -/
def memberToString (m : Member) : String :=
  "<@!" ++ toString m.user_id ++ ">"

/-- `get_member` from `src/commands/mute.rs` lines 101-113. The result of
`args.single::<UserId>()` (an external parser) enters as `parsedId`; the
HTTP member fetch used in the id branch enters as `fetch`. In the name
branch, `member_named` (external cache lookup, exact name match per the
spec) finds a member by name or fails with the descriptive error. -/
def get_member (parsedId : Option Nat) (fetch : Nat → Except String Member)
    (argCurrent : String) (guild : Guild) : Except String Member :=
  match parsedId with
  | some uid => fetch uid
  | none =>
      match guild.members.find? (fun m => m.user_name = argCurrent) with
      | some m => Except.ok m
      | none => Except.error ("couldn\x27t find member: " ++ argCurrent)

deriving instance DecidableEq for Except

/-- Observable behaviour of one run of a mute-family handler: the
role-mutation API calls made (user id, role id), the replies sent to the
user, and the handler's returned result. -/
structure HandlerRun where
  role_calls : List (Nat × Nat)
  replies : List String
  result : Except CmdErr Unit
deriving DecidableEq, Repr

/-- `mute` from `src/commands/mute.rs` lines 21-36. The handler first
unwraps `config.mute_role_id` (a `none` there panics — modelled as the
outer `Option` being `none`), then resolves the guild (`guild?` carries
the outcome of `get_guild`, whose failure the `?` operator propagates),
then resolves the member with `get_member` (failure again propagated by
`?`, sending no reply), and only then calls `add_role` (its outcome enters
as `addRoleErr`) and replies with the outcome text. -/
def mute_run (c : Config) (guild? : Except String Guild)
    (parsedId : Option Nat) (argCurrent : String)
    (fetch : Nat → Except String Member) (addRoleErr : Option String) :
    Option HandlerRun :=
  match c.mute_role_id with
  | none => none
  | some rid =>
      some (match guild? with
        | Except.error e => ⟨[], [], Except.error (CmdErr.message e)⟩
        | Except.ok guild =>
            match get_member parsedId fetch argCurrent guild with
            | Except.error e => ⟨[], [], Except.error (CmdErr.message e)⟩
            | Except.ok member =>
                let message :=
                  match addRoleErr with
                  | none => memberToString member ++ " was muted"
                  | some err =>
                      "Couldn\x27t mute " ++ memberToString member ++ ": " ++ err
                ⟨[(member.user_id, rid)], [message], Except.ok ()⟩)

/-- `unmute` from `src/commands/mute.rs` lines 42-57: same shape as
`mute`, with the guild resolved before the `mute_role_id` unwrap and the
role removed instead of added. -/
def unmute_run (c : Config) (guild? : Except String Guild)
    (parsedId : Option Nat) (argCurrent : String)
    (fetch : Nat → Except String Member) (removeRoleErr : Option String) :
    Option HandlerRun :=
  match guild? with
  | Except.error e => some ⟨[], [], Except.error (CmdErr.message e)⟩
  | Except.ok guild =>
      match c.mute_role_id with
      | none => none
      | some rid =>
          some (match get_member parsedId fetch argCurrent guild with
            | Except.error e => ⟨[], [], Except.error (CmdErr.message e)⟩
            | Except.ok member =>
                let message :=
                  match removeRoleErr with
                  | none => memberToString member ++ " was unmuted"
                  | some err =>
                      "Couldn\x27t unmute " ++ memberToString member ++ ": " ++ err
                ⟨[(member.user_id, rid)], [message], Except.ok ()⟩)

/-- `muted` from `src/commands/mute.rs` lines 60-80: lists the members
holding the mute role, or a fixed message when there are none; makes no
role-mutation call. -/
def muted_run (c : Config) (guild? : Except String Guild) :
    Option HandlerRun :=
  match guild? with
  | Except.error e => some ⟨[], [], Except.error (CmdErr.message e)⟩
  | Except.ok guild =>
      match c.mute_role_id with
      | none => none
      | some rid =>
          let members := (guild.members.filter (fun m => m.roles.contains rid)).map
            memberToString
          let message :=
            if members.length > 0 then
              "Currently muted members: " ++ String.intercalate ", " members
            else
              "No members are currently muted"
          some ⟨[], [message], Except.ok ()⟩

/-! ## `slow_mode` handler (C6, src/main.rs lines 350-369) -/

/-- `slow_mode`: `arg` is the result of `args.single::<u64>()` (external
parser), `editResult` the outcome of the channel-edit API call, and
`cachedChannel` the cached guild channel if any, carrying its
`slow_mode_rate` field. Returns the slow-mode edit calls made (the rate
requested) and the reply text. -/
def slow_mode_run (arg : Option Nat) (editResult : Except String Unit)
    (cachedChannel : Option (Option Nat)) : List Nat × String :=
  match arg with
  | some n =>
      (match editResult with
       | Except.ok _ =>
           ([n], "Successfully set slow mode rate to `" ++ toString n ++ "` seconds.")
       | Except.error _ =>
           ([n], "Failed to set slow mode to `" ++ toString n ++ "` seconds."))
  | none =>
      match cachedChannel with
      | some rate =>
          ([], "Current slow mode rate is `" ++ toString (rate.getD 0) ++ "` seconds.")
      | none => ([], "Failed to find channel in cache.")

/-! ## `play` handler (C7, src/commands/activity.rs lines 14-28) -/

/-- A mentioned user as `play` consumes it: id and display name. -/
structure UserModel where
  id : Nat
  name : String
deriving DecidableEq, Repr

/-- serenity renders a `User` as its mention tag. -/
def user_mention (u : UserModel) : String :=
  "<@" ++ toString u.id ++ ">"

/-- Rust's `str::replace`, fuel-indexed to keep the recursion structural
(each step consumes at least one character, so `s.length` fuel is exact):
replaces every non-overlapping occurrence of `pat` in `s` by `rep`, left
to right, never rescanning emitted replacement text. A mention pattern is
never empty; the empty pattern returns the input unchanged. -/
def replaceAllFuel (fuel : Nat) (s pat rep : List Char) : List Char :=
  match fuel, s, pat with
  | 0, s, _ => s
  | _ + 1, s, [] => s
  | _ + 1, [], _ => []
  | fuel + 1, c :: s', p :: ps =>
      if (p :: ps).isPrefixOf (c :: s') then
        rep ++ replaceAllFuel fuel ((c :: s').drop (p :: ps).length) (p :: ps) rep
      else
        c :: replaceAllFuel fuel s' (p :: ps) rep

/-- Rust's `str::replace` on character lists, with the exact fuel bound. -/
def replaceAll (s pat rep : List Char) : List Char :=
  replaceAllFuel s.length s pat rep

/-- `str::replace` lifted to `String`. -/
def rustReplace (s pat rep : String) : String :=
  ⟨replaceAll s.data pat.data rep.data⟩

/-- `play`: starts from the raw argument remainder (`args.message()`) and,
for each user in the message's mention list, replaces that user's mention
tag by the user's name; the result is the presence text set. -/
def play_presence (args_message : String) (mentions : List UserModel) : String :=
  mentions.foldl (fun name u => rustReplace name (user_mention u) u.name)
    args_message

/-- Follows the spec's words (section 4.4, activity/play): the presence
text is the joined remainder of the arguments with each mentioned user's
mention substituted by that user's display name, applied user by user over
the mention list. -/
def spec_substituted_presence (remainder : String) (mentions : List UserModel) :
    String :=
  match mentions with
  | [] => remainder
  | u :: rest =>
      spec_substituted_presence (rustReplace remainder (user_mention u) u.name) rest

/-! ## Theorems -/

/-- C1 counterexample: the claim that no Configuration-reading handler
holds the read lock across an outbound platform call is false on the code —
in all four handlers (`version`, `mute`, `unmute`, `muted`) the read guard
is dropped only at the end of the body, so an outbound call occurs while
the lock is held. -/
theorem config_lock_across_call_counterexample :
    holds_lock_across_call version_trace = true ∧
    holds_lock_across_call mute_trace = true ∧
    holds_lock_across_call unmute_trace = true ∧
    holds_lock_across_call muted_trace = true := by
  decide

/-- C1 amended: each Configuration-reading handler acquires the read lock
before any outbound call, reads the fields it needs while holding it, and
releases the lock only when the handler returns — after its outbound
platform calls, so the lock is held across them. -/
theorem config_lock_held_until_return :
    (acquires_first version_trace = true ∧ releases_last version_trace = true ∧
      holds_lock_across_call version_trace = true) ∧
    (acquires_first mute_trace = true ∧ releases_last mute_trace = true ∧
      holds_lock_across_call mute_trace = true) ∧
    (acquires_first unmute_trace = true ∧ releases_last unmute_trace = true ∧
      holds_lock_across_call unmute_trace = true) ∧
    (acquires_first muted_trace = true ∧ releases_last muted_trace = true ∧
      holds_lock_across_call muted_trace = true) := by
  decide

/-- C3 counterexample: on a successful send, `cat` signals the bucket
refund as an *error* outcome (`Err(RevertBucket)`), and the `after` hook
therefore logs it at error level, not as a success. -/
theorem revert_bucket_logged_as_error_counterexample :
    (cat_run (Except.ok ())).1 = [":cat:"] ∧
    (cat_run (Except.ok ())).2 = Except.error CmdErr.revertBucket ∧
    (after_hook "cat" (cat_run (Except.ok ())).2).1 = LogLevel.error ∧
    LogLevel.error ≠ LogLevel.info := by
  refine ⟨rfl, rfl, rfl, by decide⟩

/-- C3 amended: on every successful invocation of `cat` or `eggplant` the
fixed emoji message is sent and the handler signals the bucket refund as
the distinguished error value `RevertBucket`; the dispatcher restores the
bucket's prior state for that caller, and the post-dispatch hook logs the
outcome through its error branch, not as a success. -/
theorem emoji_revert_bucket_spec :
    ∀ prior consumed : BucketState,
      cat_run (Except.ok ()) = ([":cat:"], Except.error CmdErr.revertBucket) ∧
      eggplant_run (Except.ok ()) =
        (["<:baklazan:815856883771506768>"], Except.error CmdErr.revertBucket) ∧
      dispatcher_bucket_after prior consumed (cat_run (Except.ok ())).2 = prior ∧
      dispatcher_bucket_after prior consumed (eggplant_run (Except.ok ())).2 = prior ∧
      (after_hook "cat" (cat_run (Except.ok ())).2).1 = LogLevel.error ∧
      (after_hook "eggplant" (eggplant_run (Except.ok ())).2).1 = LogLevel.error := by
  intro prior consumed
  exact ⟨rfl, rfl, rfl, rfl, rfl, rfl⟩

/-- C10: every Configuration reachable in the program (created by
`Config::new`, never mutated by any in-scope operation) carries
`mute_role_id = Some(818097980493660170)`, so the `.unwrap()` in `mute`,
`unmute` and `muted` never panics: all three runs produce a result for
every combination of external outcomes. -/
theorem mute_role_unwrap_never_panics (c : Config) (h : ConfigReachable c) :
    c.mute_role_id = some 818097980493660170 ∧
    unwrap_mute_role c = Except.ok 818097980493660170 ∧
    ∀ (guild? : Except String Guild) (parsedId : Option Nat) (arg : String)
      (fetch : Nat → Except String Member) (roleErr : Option String),
      (mute_run c guild? parsedId arg fetch roleErr).isSome = true ∧
      (unmute_run c guild? parsedId arg fetch roleErr).isSome = true ∧
      (muted_run c guild?).isSome = true := by
  cases h with
  | init v =>
      refine ⟨rfl, rfl, ?_⟩
      intro guild? parsedId arg fetch roleErr
      refine ⟨rfl, ?_, ?_⟩
      · cases guild? <;> rfl
      · cases guild? <;> rfl

/-- Witness for C10: under the configuration built by `Config::new`, a
concrete `mute` run on an empty guild produces a result (no panic). -/
theorem mute_role_unwrap_never_panics_witness :
    (Config.new "1.0").mute_role_id = some 818097980493660170 ∧
    (mute_run (Config.new "1.0") (Except.ok ⟨[]⟩) none "ghost"
      (fun _ => Except.error "http") none).isSome = true :=
  ⟨(mute_role_unwrap_never_panics (Config.new "1.0") (ConfigReachable.init "1.0")).1,
   ((mute_role_unwrap_never_panics (Config.new "1.0") (ConfigReachable.init "1.0")).2.2
      (Except.ok ⟨[]⟩) none "ghost" (fun _ => Except.error "http") none).1⟩

/-- C2: the `version` command replies with the fixed placeholder glyph when
the configured version string is the unresolved template literal or empty,
and with the version string itself for every other value. -/
theorem version_reply_spec (v : String) :
    (v = "\x7b\x7bversion\x7d\x7d" ∨ v = "" → version_message v = "¯\\_(ツ)_/¯") ∧
    (v ≠ "\x7b\x7bversion\x7d\x7d" → v ≠ "" → version_message v = v) := by
  constructor
  · intro h
    rcases h with h | h <;> simp [version_message, h]
  · intro h1 h2
    simp [version_message, h1, h2]

/-- Witness for C2: the template literal maps to the glyph and "1.2.3" maps
to itself. -/
theorem version_reply_spec_witness :
    version_message "\x7b\x7bversion\x7d\x7d" = "¯\\_(ツ)_/¯" ∧
    version_message "1.2.3" = "1.2.3" :=
  ⟨(version_reply_spec "\x7b\x7bversion\x7d\x7d").1 (Or.inl rfl),
   (version_reply_spec "1.2.3").2 (by decide) (by decide)⟩

/-- C8: the `do_you_know` reply is a function solely of whether the
author's display name equals the fixed literal "zawiszaty": one fixed reply
on equality, a different fixed reply otherwise, and any two messages with
the same author name get the same reply regardless of any other field. -/
theorem do_you_know_reply_spec :
    (∀ msg : MessageModel, msg.author_name = "zawiszaty" →
      do_you_know_reply msg = "tobie nie powiem") ∧
    (∀ msg : MessageModel, msg.author_name ≠ "zawiszaty" →
      do_you_know_reply msg = "pierwsze słyszę") ∧
    (∀ m1 m2 : MessageModel, m1.author_name = m2.author_name →
      do_you_know_reply m1 = do_you_know_reply m2) ∧
    ("tobie nie powiem" : String) ≠ "pierwsze słyszę" := by
  refine ⟨?_, ?_, ?_, by decide⟩
  · intro msg h; simp [do_you_know_reply, h]
  · intro msg h; simp [do_you_know_reply, h]
  · intro m1 m2 h; simp [do_you_know_reply, h]

/-- Witness for C8: two concrete messages differing in every field except
the author name get the two fixed replies. -/
theorem do_you_know_reply_spec_witness :
    do_you_know_reply ⟨1, "zawiszaty", "!znasz", 7⟩ = "tobie nie powiem" ∧
    do_you_know_reply ⟨2, "someone", "!know", 9⟩ = "pierwsze słyszę" :=
  ⟨do_you_know_reply_spec.1 ⟨1, "zawiszaty", "!znasz", 7⟩ rfl,
   do_you_know_reply_spec.2.1 ⟨2, "someone", "!know", 9⟩ (by decide)⟩

/-- C9: `owner_check` passes exactly for the user id 355607930168541185;
every other author fails with the user-visible reason
"Lacked owner permission" — including the other ids of the framework's
owners set — so `ping` replies only for that single user. -/
theorem owner_check_spec (uid : Nat) :
    (owner_check uid = Except.ok () ↔ uid = 355607930168541185) ∧
    (uid ≠ 355607930168541185 →
      owner_check uid = Except.error (Reason.user "Lacked owner permission") ∧
      ping_dispatch uid = none) ∧
    (∀ oid ∈ framework_owners, oid ≠ 355607930168541185 →
      owner_check oid = Except.error (Reason.user "Lacked owner permission")) ∧
    (uid = 355607930168541185 → ping_dispatch uid = some "Pong! :-)") := by
  refine ⟨?_, ?_, ?_, ?_⟩
  · constructor
    · intro h
      by_contra hne
      simp [owner_check, hne] at h
    · intro h; simp [owner_check, h]
  · intro h
    constructor
    · simp [owner_check, h]
    · simp [ping_dispatch, owner_check, h]
  · intro oid _ h
    simp [owner_check, h]
  · intro h
    simp [ping_dispatch, owner_check, h]

/-- C4 counterexample: with an argument that neither parses as a user id
nor names any guild member, `mute` makes no role-mutation call but also
sends *no* reply — the lookup error propagates out of the handler via the
`?` operator instead of being reported to the user, contradicting the
claim that the user receives a reply about the lookup failure. -/
theorem mute_lookup_failure_counterexample :
    mute_run (Config.new "1.0") (Except.ok ⟨[]⟩) none "ghost"
        (fun _ => Except.error "http") none =
      some ⟨[], [], Except.error (CmdErr.message "couldn\x27t find member: ghost")⟩ ∧
    ((mute_run (Config.new "1.0") (Except.ok ⟨[]⟩) none "ghost"
        (fun _ => Except.error "http") none).getD ⟨[], [], Except.ok ()⟩).replies
      = [] ∧
    ((mute_run (Config.new "1.0") (Except.ok ⟨[]⟩) none "ghost"
        (fun _ => Except.error "http") none).getD ⟨[], [], Except.ok ()⟩).role_calls
      = [] :=
  ⟨rfl, rfl, rfl⟩

/-- C4 amended: when the argument neither parses as a user identifier nor
matches any member name in the guild, `mute` makes no role-mutation call
and sends no reply; it returns an error naming the missing member, which
the dispatcher's `after` hook logs at error level. -/
theorem mute_unresolvable_spec (guild : Guild) (arg v : String)
    (fetch : Nat → Except String Member) (roleErr : Option String)
    (h : ∀ m ∈ guild.members, m.user_name ≠ arg) :
    mute_run (Config.new v) (Except.ok guild) none arg fetch roleErr =
      some ⟨[], [],
        Except.error (CmdErr.message ("couldn\x27t find member: " ++ arg))⟩ ∧
    (after_hook "mute"
      (Except.error (CmdErr.message ("couldn\x27t find member: " ++ arg)))).1 =
      LogLevel.error := by
  have hfind : guild.members.find? (fun m => m.user_name = arg) = none := by
    rw [List.find?_eq_none]
    intro m hm
    simp [h m hm]
  constructor
  · simp [mute_run, Config.new, get_member, hfind]
  · rfl

/-- Witness for C4: a concrete guild whose only member is named "alice"
and the argument "bob". -/
theorem mute_unresolvable_spec_witness :
    mute_run (Config.new "1.0") (Except.ok ⟨[⟨5, "alice", []⟩]⟩) none "bob"
        (fun _ => Except.error "http") none =
      some ⟨[], [],
        Except.error (CmdErr.message ("couldn\x27t find member: " ++ "bob"))⟩ :=
  (mute_unresolvable_spec ⟨[⟨5, "alice", []⟩]⟩ "bob" "1.0"
    (fun _ => Except.error "http") none (by decide)).1

/-- C6 counterexample: with no parsable argument *and* the channel absent
from the cache, `slow_mode` performs no mutation but its reply is the
cache-failure text, not a report of the channel's existing slow-mode
interval. -/
theorem slow_mode_no_cache_counterexample :
    slow_mode_run none (Except.ok ()) none =
      ([], "Failed to find channel in cache.") ∧
    (slow_mode_run none (Except.ok ()) none).2 ≠
      "Current slow mode rate is `0` seconds." := by
  refine ⟨rfl, by decide⟩

/-- C6 amended: a parsable non-negative integer argument `n` triggers
exactly one slow-mode edit to `n` seconds and the reply reports that
mutation's success or failure; with no parsable argument no mutation
occurs and the reply reports the channel's existing slow-mode interval
when the channel is in the cache, or a cache-lookup failure otherwise. -/
theorem slow_mode_spec (n : Nat) (err : String) (e : Except String Unit)
    (cached : Option (Option Nat)) (rate : Option Nat) :
    slow_mode_run (some n) (Except.ok ()) cached =
      ([n], "Successfully set slow mode rate to `" ++ toString n ++ "` seconds.") ∧
    slow_mode_run (some n) (Except.error err) cached =
      ([n], "Failed to set slow mode to `" ++ toString n ++ "` seconds.") ∧
    slow_mode_run none e (some rate) =
      ([], "Current slow mode rate is `" ++ toString (rate.getD 0) ++ "` seconds.") ∧
    slow_mode_run none e none = ([], "Failed to find channel in cache.") :=
  ⟨rfl, rfl, rfl, rfl⟩

/-- C7: the presence text `play` sets equals the spec's description — the
joined argument remainder with each mentioned user's mention tag
substituted by that user's display name, user by user over the message's
mention list. -/
theorem play_presence_refines_spec (args_message : String)
    (mentions : List UserModel) :
    play_presence args_message mentions =
      spec_substituted_presence args_message mentions := by
  induction mentions generalizing args_message with
  | nil => rfl
  | cons u rest ih => exact ih (rustReplace args_message (user_mention u) u.name)

/-- Witness for C7 at a concrete input: one mention of user 5 named
"bob" inside the remainder is substituted in the presence text. -/
theorem play_presence_refines_spec_witness :
    play_presence "chess with <@5>" [⟨5, "bob"⟩] =
      spec_substituted_presence "chess with <@5>" [⟨5, "bob"⟩] ∧
    play_presence "chess with <@5>" [⟨5, "bob"⟩] = "chess with bob" :=
  ⟨play_presence_refines_spec "chess with <@5>" [⟨5, "bob"⟩], by decide⟩

/-- After the first rejection in a window the per-caller flag is set, so
further invocations inside the same window produce no notification. -/
theorem runNotifications_after_first_rejection (delay t0 : Nat) (ts : List Nat)
    (h : ∀ t ∈ ts, t < t0 + delay) :
    runNotifications delay ⟨some t0, true⟩ ts = [] := by
  induction ts with
  | nil => rfl
  | cons t ts ih =>
      have ht : t < t0 + delay := h t (by simp)
      simp only [runNotifications, bucketTry, ht, if_pos,
        dispatch_error_notification, Bool.not_true, Bool.false_eq_true,
        if_neg, Option.toList_none, List.nil_append]
      exact ih (fun x hx => h x (List.mem_cons_of_mem t hx))

/-- Inside the window no invocation is granted, whatever the per-caller
rejection flag. -/
theorem runGrants_window_zero (delay t0 : Nat) (b : Bool) (ts : List Nat)
    (h : ∀ t ∈ ts, t < t0 + delay) :
    runGrants delay ⟨some t0, b⟩ ts = 0 := by
  induction ts generalizing b with
  | nil => rfl
  | cons t ts ih =>
      have ht : t < t0 + delay := h t (by simp)
      simp only [runGrants, bucketTry, ht, if_pos]
      exact ih true (fun x hx => h x (List.mem_cons_of_mem t hx))

/-- C5: a first invocation consumes the bucket's ticket; every further
invocation by the same caller inside the `delay_seconds` window is
rejected with a ratelimit signal whose first-try flag is true exactly on
the first rejection, and across any sequence of invocations inside the
window the `dispatch_error` hook notifies the caller at most once. -/
theorem bucket_window_spec (delay t1 : Nat) (ts : List Nat)
    (hts : ∀ t ∈ ts, t < t1 + delay) :
    (bucketTry delay ⟨none, false⟩ t1).2 = TicketResult.granted ∧
    (bucketTry delay ⟨none, false⟩ t1).1 = ⟨some t1, false⟩ ∧
    (∀ t2, t2 < t1 + delay →
      (bucketTry delay ⟨some t1, false⟩ t2).2 =
        TicketResult.ratelimited ⟨t1 + delay - t2, true⟩) ∧
    runGrants delay ⟨some t1, false⟩ ts = 0 ∧
    (runNotifications delay ⟨some t1, false⟩ ts).length ≤ 1 := by
  refine ⟨rfl, rfl, ?_, ?_, ?_⟩
  · intro t2 h2
    simp [bucketTry, h2]
  · exact runGrants_window_zero delay t1 false ts hts
  · cases ts with
    | nil => simp [runNotifications]
    | cons t rest =>
        have ht : t < t1 + delay := hts t (by simp)
        simp only [runNotifications, bucketTry, ht, if_pos,
          dispatch_error_notification, Bool.not_false, if_true,
          Option.toList_some]
        rw [runNotifications_after_first_rejection delay t1 rest
          (fun x hx => hts x (List.mem_cons_of_mem t hx))]
        simp

/-- Witness for C5 at delay 5: a grant at time 0, then invocations at
times 1, 2 and 3 are all rejected and produce at most one notification. -/
theorem bucket_window_spec_witness :
    (bucketTry 5 ⟨none, false⟩ 0).2 = TicketResult.granted ∧
    runGrants 5 ⟨some 0, false⟩ [1, 2, 3] = 0 ∧
    (runNotifications 5 ⟨some 0, false⟩ [1, 2, 3]).length ≤ 1 :=
  ⟨(bucket_window_spec 5 0 [1, 2, 3] (by decide)).1,
   (bucket_window_spec 5 0 [1, 2, 3] (by decide)).2.2.2.1,
   (bucket_window_spec 5 0 [1, 2, 3] (by decide)).2.2.2.2⟩

/-- Witness for C9: the single allowed id gets the reply; the other
configured owner id 534066481369972757 fails with the user-visible reason. -/
theorem owner_check_spec_witness :
    ping_dispatch 355607930168541185 = some "Pong! :-)" ∧
    owner_check 534066481369972757 =
      Except.error (Reason.user "Lacked owner permission") ∧
    ping_dispatch 534066481369972757 = none :=
  ⟨(owner_check_spec 355607930168541185).2.2.2 rfl,
   ((owner_check_spec 534066481369972757).2.1 (by decide)).1,
   ((owner_check_spec 534066481369972757).2.1 (by decide)).2⟩
